import Mathlib

/-!
Shallow embedding of the single-page catalog-selection application in
`src/frontend/src/App.js` (a React SPA).  The two screens, `ProgramSelection`
and `ProgramDetails`, are modelled as explicit state machines: component state
becomes a structure, event handlers become state-transition functions that also
return the list of observable effects (HTTP requests, toast notifications,
scheduled navigations), and rendering becomes a pure function from state to a
view datatype.  JavaScript primitives the code relies on (`Array.findIndex`,
the `%` remainder, `parseInt`, `String.replace` of the first occurrence, array
indexing returning `undefined` out of range, `Date` parsing and
`toLocaleDateString`) are modelled explicitly below, with `Option` standing
for `undefined` / `NaN` propagation where it matters.
-/

namespace App

/-- The `Program` entity as delivered by the backend; all fields are strings
(`created_at` is an ISO-8601 timestamp string). Mirrors the fields used by
`App.js`: `id`, `name`, `title`, `description`, `created_at`. -/
structure Program where
  id : String
  name : String
  title : String
  description : String
  created_at : String
deriving Repr, DecidableEq

/-- A selection request as built in `handleProgramSelect` (App.js lines 40-44):
a POST to `url` whose body carries `program_id`, `program_name` and
`user_session`. -/
structure SelectRequest where
  url : String
  program_id : String
  program_name : String
  user_session : String
deriving Repr, DecidableEq

/-- Observable effects emitted by the event handlers: the selection POST,
`toast.success` / `toast.error` notifications, and a navigation scheduled via
`setTimeout(() => navigate(target), delayMs)`. -/
inductive Effect where
  | post (r : SelectRequest)
  | toastSuccess (msg : String)
  | toastError (msg : String)
  | scheduleNav (delayMs : Nat) (target : String)
deriving Repr, DecidableEq

/-- The fixed 15-entry gradient palette, duplicated verbatim in the source at
App.js lines 89-105 (grid) and lines 226-242 (detail banner). -/
def gradients : List String :=
  [ "from-emerald-400 to-teal-500"
  , "from-teal-400 to-cyan-500"
  , "from-cyan-400 to-blue-500"
  , "from-blue-400 to-indigo-500"
  , "from-indigo-400 to-violet-500"
  , "from-violet-400 to-purple-500"
  , "from-purple-400 to-pink-500"
  , "from-pink-400 to-rose-500"
  , "from-rose-400 to-orange-500"
  , "from-orange-400 to-amber-500"
  , "from-amber-400 to-yellow-500"
  , "from-yellow-400 to-lime-500"
  , "from-lime-400 to-green-500"
  , "from-green-400 to-emerald-500"
  , "from-red-400 to-pink-500" ]

/-! ## JavaScript primitive models -/

/-- JavaScript `%` (remainder): truncated division remainder, whose sign
follows the dividend.  For a nonnegative dividend and positive divisor it
agrees with Euclidean `%`; for a negative dividend it is the negation of the
remainder of the absolute value (e.g. `-1 % 15 = -1` in JS). -/
def jsRem (a b : Int) : Int :=
  if a < 0 then -((-a) % b) else a % b

/-- JavaScript array indexing `xs[i]`: `some` entry when `0 ≤ i < xs.length`,
`none` (for `undefined`) otherwise, including every negative index. -/
def jsArrayGet (xs : List String) (i : Int) : Option String :=
  if 0 ≤ i then xs.get? i.toNat else none

/-- JavaScript `Array.prototype.findIndex`: index of the first element
satisfying the predicate, `-1` when none does. -/
def jsFindIndex (p : Program → Bool) (ps : List Program) : Int :=
  match ps.findIdx? p with
  | some i => (i : Int)
  | none => -1

/-! ## ProgramSelection: state and event handlers -/

/-- Local view state of the `ProgramSelection` component (App.js lines 16-18):
the fetched `programs`, the provisional `selectedProgram`, and the loading
flag. -/
structure SelState where
  programs : List Program
  selectedProgram : Option Program
  loading : Bool
deriving Repr, DecidableEq

/-- Initial state on mount: empty list, no selection, loading. -/
def selInit : SelState :=
  { programs := [], selectedProgram := none, loading := true }

/-- The selection request built in `handleProgramSelect` (App.js lines 40-44):
POST `{base}/api/select-program` with `program_id = program.id`,
`program_name = program.name` and `user_session = "session_" + Date.now()`,
where `now` is the current time in milliseconds. -/
def selectRequestFor (base : String) (program : Program) (now : Nat) : SelectRequest :=
  { url := base ++ "/api" ++ "/select-program"
  , program_id := program.id
  , program_name := program.name
  , user_session := "session_" ++ toString now }

/-- Synchronous part of `handleProgramSelect` (App.js lines 36-44): set
`selectedProgram` to the clicked program, then issue the selection POST. -/
def handleProgramSelectStart (base : String) (s : SelState) (program : Program)
    (now : Nat) : SelState × List Effect :=
  ({ s with selectedProgram := some program },
   [Effect.post (selectRequestFor base program now)])

/-- Continuation of `handleProgramSelect` once the POST resolves (App.js lines
46-55): on success, a success toast and a navigation to the program detail
route scheduled after a 1000 ms delay; on failure, an error toast and
`selectedProgram` reset to `null`. -/
def handleProgramSelectResolve (s : SelState) (program : Program)
    (ok : Bool) : SelState × List Effect :=
  if ok then
    (s, [ Effect.toastSuccess ("Selected " ++ program.name ++ " successfully!")
        , Effect.scheduleNav 1000 ("/program/" ++ program.id) ])
  else
    ({ s with selectedProgram := none },
     [Effect.toastError "Failed to select program"])

/-- Resolution of the mount-time `fetchPrograms` (App.js lines 25-34):
on success store the list and stop loading; on failure toast an error and
stop loading. -/
def fetchProgramsResolve (s : SelState) (result : Option (List Program)) :
    SelState × List Effect :=
  match result with
  | some ps => ({ s with programs := ps, loading := false }, [])
  | none => ({ s with loading := false }, [Effect.toastError "Failed to load programs"])

/-- Events that can hit a mounted `ProgramSelection` component. -/
inductive SelEvent where
  | programsResult (result : Option (List Program))
  | clickCard (program : Program) (now : Nat)
  | selectResult (program : Program) (ok : Bool)
deriving Repr

/-- One step of the `ProgramSelection` machine, dispatching to the handlers
above. -/
def selStep (base : String) (s : SelState) (e : SelEvent) : SelState × List Effect :=
  match e with
  | SelEvent.programsResult r => fetchProgramsResolve s r
  | SelEvent.clickCard p now => handleProgramSelectStart base s p now
  | SelEvent.selectResult p ok => handleProgramSelectResolve s p ok

/-- States reachable from the mount state by any event sequence. -/
inductive SelReachable (base : String) : SelState → Prop where
  | init : SelReachable base selInit
  | next (s : SelState) (e : SelEvent) :
      SelReachable base s → SelReachable base (selStep base s e).1

/-! ## ProgramSelection: rendered grid -/

/-- What a rendered program card exposes (App.js lines 110-162): its React
key, gradient stripe, text fields, whether it shows as selected, the
unconditional card-level `onClick` handler, and whether the inner button is
`disabled`. -/
structure CardView where
  key : String
  gradient : Option String
  name : String
  titleBadge : String
  description : String
  isSelected : Bool
  hasClickHandler : Bool
  buttonDisabled : Bool
deriving Repr, DecidableEq

/-- Gradient of a card in the grid (App.js lines 107-108):
`gradients[programs.findIndex(p => p.id === program.id) % gradients.length]`. -/
def gridGradient (ps : List Program) (program : Program) : Option String :=
  jsArrayGet gradients (jsRem (jsFindIndex (fun p => p.id == program.id) ps) gradients.length)

/-- The `isSelected` test of App.js line 88:
`selectedProgram?.id === program.id`, `false` when nothing is selected. -/
def isSelectedOf (sel : Option Program) (program : Program) : Bool :=
  match sel with
  | some q => q.id == program.id
  | none => false

/-- Rendering of one card (App.js lines 87-162): `isSelected` compares the
provisional selection's id with the card's id; the card div always carries the
`onClick` handler (line 116) while only the inner button is `disabled` when
selected (line 147). -/
def renderCard (sel : Option Program) (ps : List Program) (program : Program) : CardView :=
  let isSel : Bool := isSelectedOf sel program
  { key := program.id
  , gradient := gridGradient ps program
  , name := program.name
  , titleBadge := program.title
  , description := program.description
  , isSelected := isSel
  , hasClickHandler := true
  , buttonDisabled := isSel }

/-- The grid maps `renderCard` over the program list (App.js line 87). -/
def renderCards (s : SelState) : List CardView :=
  s.programs.map (renderCard s.selectedProgram s.programs)

/-! ## JavaScript `parseInt` and `String.replace` models -/

/-- ASCII whitespace skipped by JavaScript `parseInt` before the number
(space, tab, line feed, carriage return, vertical tab, form feed). -/
def isJsWhitespace (c : Char) : Bool :=
  c == ' ' || c == '\t' || c == '\n' || c == '\r' || c == '\x0b' || c == '\x0c'

/-- Numeric value of a hexadecimal digit character, `none` otherwise (code
points: `0`-`9` are 48-57, `a`-`f` are 97-102, `A`-`F` are 65-70). -/
def hexDigitVal (c : Char) : Option Nat :=
  let cp := c.toNat
  if 48 ≤ cp ∧ cp ≤ 57 then some (cp - 48)
  else if 97 ≤ cp ∧ cp ≤ 102 then some (cp - 87)
  else if 65 ≤ cp ∧ cp ≤ 70 then some (cp - 55)
  else none

/-- Accumulate the value of the longest digit run (into the given radix) at
the front of the character list, the way `parseInt` does: stop at the first
non-digit, `none` when no digit was consumed at all (NaN). -/
def parseDigits (radix : Nat) (acc : Option Nat) : List Char → Option Nat
  | [] => acc
  | c :: rest =>
    match hexDigitVal c with
    | some v => if v < radix then parseDigits radix (some (acc.getD 0 * radix + v)) rest else acc
    | none => acc

/-- JavaScript `parseInt(s)` with no radix argument: skip leading whitespace,
optional sign, auto-detect a `0x`/`0X` hexadecimal prefix, then read the
longest digit run; `none` models `NaN`. -/
def jsParseInt (s : String) : Option Int :=
  let cs := s.toList.dropWhile isJsWhitespace
  let signed : Int × List Char :=
    match cs with
    | '-' :: rest => (-1, rest)
    | '+' :: rest => (1, rest)
    | _ => (1, cs)
  let based : Nat × List Char :=
    match signed.2 with
    | '0' :: 'x' :: rest => (16, rest)
    | '0' :: 'X' :: rest => (16, rest)
    | _ => (10, signed.2)
  (parseDigits based.1 none based.2).map (fun n => signed.1 * (n : Int))

/-- Remove the first occurrence of the (nonempty) pattern from the character
list, as JavaScript `s.replace(pat, "")` does with a string pattern. -/
def removeFirstOcc (pat : List Char) : List Char → List Char
  | [] => []
  | c :: rest =>
    if pat.isPrefixOf (c :: rest) then List.drop pat.length (c :: rest)
    else c :: removeFirstOcc pat rest

/-- JavaScript `name.replace("Prg", "")` as used at App.js line 225. -/
def stripPrgOnce (name : String) : String :=
  String.mk (removeFirstOcc "Prg".toList name.toList)

/-! ## JavaScript `Date` model

`new Date(created_at).toLocaleDateString()` (App.js line 299) never throws:
an unparseable string yields an Invalid Date, which `toLocaleDateString`
renders as the text `"Invalid Date"`.  The ECMAScript Date Time String Format
(the ISO-8601 subset every engine must accept) is modelled by `jsDateParse`
below: `YYYY-MM-DD`, optionally followed by `THH:MM`, `:SS`, a fractional
part, and a `Z` or `±HH:MM` offset, with range checks on every field.  The
localized rendering is modelled for the en-US locale with the clock left in
UTC (time-zone normalization of offsets is not applied; it never affects
whether a string is accepted, only which calendar day is shown). -/

/-- Calendar date-time carried by a successfully parsed timestamp. -/
structure ISODate where
  year : Nat
  month : Nat
  day : Nat
  hour : Nat
  minute : Nat
  second : Nat
deriving Repr, DecidableEq

/-- Value of a decimal digit character (code points 48-57), `none`
otherwise. -/
def digitVal (c : Char) : Option Nat :=
  let cp := c.toNat
  if 48 ≤ cp ∧ cp ≤ 57 then some (cp - 48) else none

/-- Read exactly `n` decimal digits from the front of the list, returning
their value and the remaining characters. -/
def parseNDigits : Nat → Nat → List Char → Option (Nat × List Char)
  | 0, acc, cs => some (acc, cs)
  | _ + 1, _, [] => none
  | n + 1, acc, c :: cs =>
    match digitVal c with
    | some d => parseNDigits n (acc * 10 + d) cs
    | none => none

/-- Days in a month, February honouring leap years. -/
def daysInMonth (year month : Nat) : Nat :=
  if month == 2 then
    if (year % 4 == 0 && year % 100 != 0) || year % 400 == 0 then 29 else 28
  else if month == 4 || month == 6 || month == 9 || month == 11 then 30
  else 31

/-- Optional fractional-seconds part: absent, or a dot followed by one to
nine digits (engines accept a lenient fraction length). Returns the remaining
characters, `none` when a dot is not followed by a digit run. -/
def parseFraction (cs : List Char) : Option (List Char) :=
  match cs with
  | '.' :: rest =>
    let digits := rest.takeWhile (fun c => (digitVal c).isSome)
    if digits.length == 0 || digits.length > 9 then none
    else some (rest.drop digits.length)
  | _ => some cs

/-- Time-zone designator closing the string: nothing, `Z`, or `±HH:MM` with
in-range fields. Returns whether the whole remainder is a valid designator. -/
def validTimeZone (cs : List Char) : Bool :=
  match cs with
  | [] => true
  | ['Z'] => true
  | sign :: rest =>
    (sign == '+' || sign == '-') &&
      (match parseNDigits 2 0 rest with
       | some (hh, ':' :: rest2) =>
         (match parseNDigits 2 0 rest2 with
          | some (mm, []) => hh < 24 && mm < 60
          | _ => false)
       | _ => false)

/-- Time-of-day part after `T`: `HH:MM`, optional `:SS`, optional fraction,
then a valid time-zone designator. -/
def parseTimePart (cs : List Char) : Option (Nat × Nat × Nat) :=
  match parseNDigits 2 0 cs with
  | some (hh, ':' :: rest) =>
    (match parseNDigits 2 0 rest with
     | some (mm, rest2) =>
       if hh ≥ 24 || mm ≥ 60 then none
       else
         (match rest2 with
          | ':' :: rest3 =>
            (match parseNDigits 2 0 rest3 with
             | some (ss, rest4) =>
               if ss ≥ 60 then none
               else
                 (match parseFraction rest4 with
                  | some rest5 => if validTimeZone rest5 then some (hh, mm, ss) else none
                  | none => none)
             | _ => none)
          | _ => if validTimeZone rest2 then some (hh, mm, 0) else none)
     | _ => none)
  | _ => none

/-- ECMAScript Date Time String Format parser: `YYYY-MM-DD` with in-range
month and day, optionally followed by `T` and a time part. `none` models an
Invalid Date. -/
def jsDateParse (s : String) : Option ISODate :=
  match parseNDigits 4 0 s.toList with
  | some (y, '-' :: rest) =>
    (match parseNDigits 2 0 rest with
     | some (mo, '-' :: rest2) =>
       (match parseNDigits 2 0 rest2 with
        | some (d, rest3) =>
          if mo < 1 || mo > 12 || d < 1 || d > daysInMonth y mo then none
          else
            (match rest3 with
             | [] => some { year := y, month := mo, day := d, hour := 0, minute := 0, second := 0 }
             | 'T' :: rest4 =>
               (match parseTimePart rest4 with
                | some (hh, mm, ss) =>
                  some { year := y, month := mo, day := d, hour := hh, minute := mm, second := ss }
                | none => none)
             | _ => none)
        | _ => none)
     | _ => none)
  | _ => none

/-- en-US `toLocaleDateString` rendering of a valid date: `M/D/YYYY`. -/
def localeDateString (d : ISODate) : String :=
  toString d.month ++ "/" ++ toString d.day ++ "/" ++ toString d.year

/-- The `Created` cell of the detail card (App.js line 299):
`new Date(program.created_at).toLocaleDateString()`.  Total: an unparseable
timestamp renders as the fallback text instead of throwing. -/
def renderCreated (created_at : String) : String :=
  match jsDateParse created_at with
  | some d => localeDateString d
  | none => "Invalid Date"

/-! ## ProgramDetails: state, fetch, rendering -/

/-- Local view state of the `ProgramDetails` component (App.js lines 181-182):
the fetched `program` (initially `null`) and the loading flag. -/
structure DetState where
  program : Option Program
  loading : Bool
deriving Repr, DecidableEq

/-- State on mount: no program yet, loading. -/
def detInit : DetState :=
  { program := none, loading := true }

/-- Outcome of the `GET {base}/api/programs/{programId}` request issued by
`fetchProgram`. -/
inductive FetchResult where
  | success (p : Program)
  | failure
deriving Repr, DecidableEq

/-- The request outcome for a given identifier against a backend modelled as
a partial map from identifiers to records: a missing identifier produces an
error status, hence a failure. -/
def fetchProgramFrom (backend : String → Option Program) (programId : String) : FetchResult :=
  match backend programId with
  | some p => FetchResult.success p
  | none => FetchResult.failure

/-- Resolution of `fetchProgram` (App.js lines 189-198): on success store the
record and stop loading; on failure toast an error and stop loading, leaving
`program` untouched. -/
def fetchProgramResolve (s : DetState) (r : FetchResult) : DetState × List Effect :=
  match r with
  | FetchResult.success p => ({ program := some p, loading := false }, [])
  | FetchResult.failure =>
    ({ s with loading := false }, [Effect.toastError "Failed to load program details"])

/-- Banner index derived from the record's own name (App.js line 225):
`parseInt(program.name.replace("Prg", "")) - 1`; `none` models NaN. -/
def detailProgramIndex (name : String) : Option Int :=
  (jsParseInt (stripPrgOnce name)).map (fun n => n - 1)

/-- Banner gradient lookup (App.js line 243):
`gradients[programIndex % gradients.length]`.  A NaN index or a negative
remainder makes the lookup `undefined`, modelled as `none`. -/
def detailGradient (name : String) : Option String :=
  match detailProgramIndex name with
  | some i => jsArrayGet gradients (jsRem i gradients.length)
  | none => none

/-- What `ProgramDetails` renders (App.js lines 200-315): the spinner while
loading; the not-found screen, whose back button navigates to the given
target, when no program is loaded; otherwise the detail card with the banner
gradient from the record's name and the formatted creation date. -/
inductive DetView where
  | loadingView
  | notFound (backTarget : String)
  | details (p : Program) (banner : Option String) (createdText : String)
      (backTarget : String)
deriving Repr, DecidableEq

/-- Render function of `ProgramDetails`: `loading` branch (line 200),
`!program` not-found branch (line 211) with its back-to-`/` button (line 216),
and the loaded branch (lines 225-315) whose back button also targets `/`. -/
def renderDetails (s : DetState) : DetView :=
  if s.loading then DetView.loadingView
  else
    match s.program with
    | none => DetView.notFound "/"
    | some p => DetView.details p (detailGradient p.name) (renderCreated p.created_at) "/"

/-! ## Sample records (the spec's example scenario) used to instantiate the
theorems below on concrete inputs -/

/-- The spec's example record: `{id:"p1", name:"Prg1", title:"Alpha", ...}`. -/
def prgA : Program :=
  { id := "p1", name := "Prg1", title := "Alpha", description := "first"
  , created_at := "2024-01-01T00:00:00Z" }

/-- A second record with a distinct id. -/
def prgB : Program :=
  { id := "p2", name := "Prg2", title := "Beta", description := "second"
  , created_at := "2024-02-03T00:00:00Z" }

/-! ## Helper lemmas -/

/-- Concatenating the API base with the selection path. -/
theorem api_url_eq (base : String) :
    base ++ "/api" ++ "/select-program" = base ++ "/api/select-program" := by
  rw [String.append_assoc]
  rfl

/-- With pairwise-distinct ids, at most one list entry has a given id. -/
theorem countP_id_le_one (x : String) (ps : List Program)
    (h : (ps.map Program.id).Nodup) :
    ps.countP (fun p => x == p.id) ≤ 1 := by
  induction ps with
  | nil => simp
  | cons a rest ih =>
    rw [List.map_cons, List.nodup_cons] at h
    rw [List.countP_cons]
    by_cases hx : (x == a.id) = true
    · have hz : rest.countP (fun p => x == p.id) = 0 := by
        rw [List.countP_eq_zero]
        intro b hb hbx
        apply h.1
        have hab : a.id = b.id := by
          have hxa : x = a.id := by simpa using hx
          have hxb : x = b.id := by simpa using hbx
          rw [← hxa, hxb]
        rw [hab]
        exact List.mem_map_of_mem Program.id hb
      simp [hz, hx]
    · have hrest := ih h.2
      simpa [hx] using hrest

/-- With pairwise-distinct ids, `findIndex` on the id of the element at
position `i` returns `i` itself. -/
theorem findIdx_id_of_nodup (ps : List Program) :
    ∀ (i : Nat) (hi : i < ps.length), (ps.map Program.id).Nodup →
      ps.findIdx? (fun p => p.id == (ps.get ⟨i, hi⟩).id) = some i := by
  induction ps with
  | nil => intro i hi _; exact absurd hi (by simp)
  | cons a rest ih =>
    intro i hi h
    rw [List.map_cons, List.nodup_cons] at h
    match i with
    | 0 => simp [List.findIdx?_cons]
    | Nat.succ j =>
      have hj : j < rest.length := Nat.lt_of_succ_lt_succ hi
      have hget : (a :: rest).get ⟨j + 1, hi⟩ = rest.get ⟨j, hj⟩ := rfl
      rw [hget, List.findIdx?_cons]
      have hfa : (a.id == (rest.get ⟨j, hj⟩).id) = false := by
        apply beq_eq_false_iff_ne.mpr
        intro heq
        apply h.1
        rw [heq]
        exact List.mem_map_of_mem Program.id (rest.get_mem j hj)
      rw [hfa]
      simpa using ih j hj h.2

/-- The JavaScript remainder coincides with the `Nat` remainder on
nonnegative dividends. -/
theorem jsRem_natCast (a b : Nat) :
    jsRem (a : Int) (b : Int) = ((a % b : Nat) : Int) := by
  unfold jsRem
  rw [if_neg (not_lt.mpr (Int.natCast_nonneg a))]
  exact (Int.ofNat_emod a b).symm

/-- JavaScript array indexing at a nonnegative index is `List.get?`. -/
theorem jsArrayGet_natCast (xs : List String) (k : Nat) :
    jsArrayGet xs (k : Int) = xs.get? k := by
  unfold jsArrayGet
  rw [if_pos (Int.natCast_nonneg k)]
  simp

/-- With pairwise-distinct ids, the grid gradient of the element at position
`i` is the palette entry at `i` modulo the palette length. -/
theorem gridGradient_at_position (ps : List Program) (i : Nat) (hi : i < ps.length)
    (h : (ps.map Program.id).Nodup) :
    gridGradient ps (ps.get ⟨i, hi⟩) = gradients.get? (i % gradients.length) := by
  unfold gridGradient
  rw [show jsFindIndex (fun p => p.id == (ps.get ⟨i, hi⟩).id) ps = (i : Int) by
    unfold jsFindIndex
    rw [findIdx_id_of_nodup ps i hi h]]
  rw [jsRem_natCast, jsArrayGet_natCast]

/-! ## Claim theorems -/

/-- C1: for every program `P` in the rendered grid, clicking `P`'s card sends
exactly one selection request: a POST to `{base}/api/select-program` whose
body has `program_id = P.id`, `program_name = P.name`, and `user_session` a
client-generated value derived from the current time
(`"session_" ++ toString now`). -/
theorem select_click_single_post (base : String) (s : SelState) (p : Program)
    (now : Nat) (_hmem : p ∈ s.programs) :
    (selStep base s (SelEvent.clickCard p now)).2 =
      [Effect.post { url := base ++ "/api/select-program"
                   , program_id := p.id
                   , program_name := p.name
                   , user_session := "session_" ++ toString now }] := by
  show [Effect.post (selectRequestFor base p now)] = _
  unfold selectRequestFor
  rw [api_url_eq]

/-- Witness for C1: the concrete click of the spec's example record sends the
single expected POST. -/
theorem select_click_single_post_witness :
    prgA ∈ ({ programs := [prgA, prgB], selectedProgram := none
            , loading := false } : SelState).programs ∧
    (selStep "http://backend"
        { programs := [prgA, prgB], selectedProgram := none, loading := false }
        (SelEvent.clickCard prgA 42)).2 =
      [Effect.post { url := "http://backend" ++ "/api/select-program"
                   , program_id := prgA.id
                   , program_name := prgA.name
                   , user_session := "session_" ++ toString 42 }] :=
  ⟨by decide,
   select_click_single_post "http://backend"
     { programs := [prgA, prgB], selectedProgram := none, loading := false }
     prgA 42 (by decide)⟩

/-- C2: for every program `P`, if the selection request for `P` succeeds, a
success notification is shown and a navigation to the detail route
`/program/P.id` is scheduled after the fixed 1000 ms delay. -/
theorem select_success_toast_and_nav (base : String) (s : SelState) (p : Program) :
    selStep base s (SelEvent.selectResult p true) =
      (s, [ Effect.toastSuccess ("Selected " ++ p.name ++ " successfully!")
          , Effect.scheduleNav 1000 ("/program/" ++ p.id) ]) := rfl

/-- C3: for every program `P`, if the selection request for `P` fails, an
error notification is shown, the provisional selection is cleared back to no
selection, and no navigation is scheduled. -/
theorem select_failure_clears_selection (base : String) (s : SelState) (p : Program) :
    (selStep base s (SelEvent.selectResult p false)).1.selectedProgram = none ∧
    (selStep base s (SelEvent.selectResult p false)).2 =
      [Effect.toastError "Failed to select program"] ∧
    ∀ (d : Nat) (t : String),
      Effect.scheduleNav d t ∉ (selStep base s (SelEvent.selectResult p false)).2 := by
  refine ⟨rfl, rfl, ?_⟩
  intro d t hmem
  simp [selStep, handleProgramSelectResolve] at hmem

/-- C4: for every identifier whose detail fetch fails — in particular every
identifier absent from the backend — `ProgramDetails`, freshly mounted,
renders the not-found state carrying a back-to-list control that navigates to
the grid route `/`; the render function is total, so no crash is possible. -/
theorem detail_missing_id_not_found (backend : String → Option Program)
    (programId : String) (h : backend programId = none) :
    fetchProgramFrom backend programId = FetchResult.failure ∧
    renderDetails (fetchProgramResolve detInit (fetchProgramFrom backend programId)).1 =
      DetView.notFound "/" := by
  have hf : fetchProgramFrom backend programId = FetchResult.failure := by
    unfold fetchProgramFrom
    rw [h]
  refine ⟨hf, ?_⟩
  rw [hf]
  rfl

/-- Witness for C4: the spec's example identifier `p9` against an empty
backend yields the not-found rendering. -/
theorem detail_missing_id_not_found_witness :
    (fun _ : String => (none : Option Program)) "p9" = none ∧
    fetchProgramFrom (fun _ : String => none) "p9" = FetchResult.failure ∧
    renderDetails (fetchProgramResolve detInit
        (fetchProgramFrom (fun _ : String => none) "p9")).1 = DetView.notFound "/" := by
  have h := detail_missing_id_not_found (fun _ : String => none) "p9" rfl
  exact ⟨rfl, h.1, h.2⟩

/-- C5: with unique ids, the gradient of the card at position `i` is the
palette entry at index `i` modulo the palette length, and the gradient
assignment of the whole grid is identical across renders with different
transient selection states (stability for a fixed ordering). -/
theorem grid_gradient_position_mod (sel sel' : Option Program) (ps : List Program)
    (i : Nat) (hi : i < ps.length) (h : (ps.map Program.id).Nodup) :
    (renderCard sel ps (ps.get ⟨i, hi⟩)).gradient =
      gradients.get? (i % gradients.length) ∧
    (renderCards { programs := ps, selectedProgram := sel, loading := false }).map
        CardView.gradient =
      (renderCards { programs := ps, selectedProgram := sel', loading := false }).map
        CardView.gradient := by
  constructor
  · show gridGradient ps (ps.get ⟨i, hi⟩) = _
    exact gridGradient_at_position ps i hi h
  · show (ps.map (renderCard sel ps)).map CardView.gradient =
        (ps.map (renderCard sel' ps)).map CardView.gradient
    rw [List.map_map, List.map_map]
    rfl

/-- Witness for C5: position 1 of a two-element grid gets palette entry 1,
whatever the provisional selection is. -/
theorem grid_gradient_position_mod_witness :
    (renderCard (none : Option Program) [prgA, prgB]
        ([prgA, prgB].get ⟨1, by decide⟩)).gradient =
      gradients.get? (1 % gradients.length) ∧
    (renderCards { programs := [prgA, prgB], selectedProgram := none
                 , loading := false }).map CardView.gradient =
      (renderCards { programs := [prgA, prgB], selectedProgram := some prgA
                   , loading := false }).map CardView.gradient :=
  grid_gradient_position_mod none (some prgA) [prgA, prgB] 1 (by decide) (by decide)

/-- C6 (counterexample): the detail-banner palette lookup does not always
yield a valid palette entry.  For the record named `"Prg0"` the parsed index
is `0 - 1 = -1`, the JavaScript remainder keeps it at `-1`, and
`gradients[-1]` is `undefined` (`none`): the loaded detail view renders with
no palette entry at all. -/
theorem detail_gradient_prg0_undefined :
    detailGradient "Prg0" = none ∧
    renderDetails { program := some { id := "p0", name := "Prg0", title := "Zero"
                                    , description := "z"
                                    , created_at := "2024-01-01" }
                  , loading := false } =
      DetView.details { id := "p0", name := "Prg0", title := "Zero"
                      , description := "z", created_at := "2024-01-01" }
        none "1/1/2024" "/" := by
  exact ⟨rfl, rfl⟩

/-- C6 (amended): the detail banner gradient is derived solely from the
record's own `name` (never from a list position): when stripping the first
occurrence of `"Prg"` and parsing the remainder yields a number `n + 1 ≥ 1`,
the banner is the palette entry at `n` modulo the palette length, and that
lookup is a valid palette entry. -/
theorem detail_gradient_from_name (p : Program) (n : Nat)
    (h : jsParseInt (stripPrgOnce p.name) = some ((n : Int) + 1)) :
    detailGradient p.name = gradients.get? (n % gradients.length) ∧
    (gradients.get? (n % gradients.length)).isSome = true := by
  have hidx : detailProgramIndex p.name = some (n : Int) := by
    unfold detailProgramIndex
    rw [h]
    simp
  constructor
  · unfold detailGradient
    rw [hidx]
    show jsArrayGet gradients (jsRem (n : Int) (gradients.length : Int)) =
      gradients.get? (n % gradients.length)
    rw [jsRem_natCast, jsArrayGet_natCast]
  · have hlt : n % gradients.length < gradients.length :=
      Nat.mod_lt _ (by decide)
    rw [List.get?_eq_get hlt]
    rfl

/-- Witness for C6 (amended): the record named `"Prg2"` parses to 2, so its
banner is palette entry 1. -/
theorem detail_gradient_from_name_witness :
    detailGradient prgB.name = gradients.get? (1 % gradients.length) ∧
    (gradients.get? (1 % gradients.length)).isSome = true :=
  detail_gradient_from_name prgB 1 (by decide)

/-- C7: rendering `created_at` is a total function, hence never throws: every
timestamp accepted by the Date model renders as its localized date string,
and every malformed timestamp degrades to the fallback text
`"Invalid Date"`. -/
theorem render_created_total_dichotomy :
    (∀ (s : String) (d : ISODate), jsDateParse s = some d →
        renderCreated s = localeDateString d) ∧
    (∀ s : String, jsDateParse s = none → renderCreated s = "Invalid Date") := by
  constructor
  · intro s d h
    unfold renderCreated
    rw [h]
  · intro s h
    unfold renderCreated
    rw [h]

/-- Witness for C7: the spec's example timestamp renders as a date string and
a garbage timestamp renders as the fallback. -/
theorem render_created_total_dichotomy_witness :
    renderCreated "2024-01-01T00:00:00Z" =
      localeDateString { year := 2024, month := 1, day := 1
                       , hour := 0, minute := 0, second := 0 } ∧
    renderCreated "garbage" = "Invalid Date" :=
  ⟨render_created_total_dichotomy.1 "2024-01-01T00:00:00Z"
      { year := 2024, month := 1, day := 1, hour := 0, minute := 0, second := 0 }
      (by decide),
   render_created_total_dichotomy.2 "garbage" (by decide)⟩

/-- C8: in every reachable state of `ProgramSelection`, when the listed ids
are pairwise distinct at most one rendered card is in the provisional
selected state, and clicking a second card while a selection is pending
simply replaces the provisional selection with the newly clicked program. -/
theorem single_provisional_selection (base : String) (s : SelState)
    (_hreach : SelReachable base s) :
    ((s.programs.map Program.id).Nodup →
      ((renderCards s).filter (fun c => c.isSelected)).length ≤ 1) ∧
    (∀ (p q : Program) (now : Nat), s.selectedProgram = some p →
      ((selStep base s (SelEvent.clickCard q now)).1).selectedProgram = some q) := by
  constructor
  · intro hnodup
    have h1 : ((renderCards s).filter (fun c => c.isSelected)).length =
        s.programs.countP (fun p => isSelectedOf s.selectedProgram p) := by
      rw [renderCards, ← List.countP_eq_length_filter, List.countP_map]
      rfl
    rw [h1]
    cases hsel : s.selectedProgram with
    | none =>
      have hz : s.programs.countP (fun p => isSelectedOf none p) = 0 := by
        rw [List.countP_eq_zero]
        intro a _ hfa
        simp [isSelectedOf] at hfa
      rw [hz]
      exact Nat.zero_le 1
    | some q =>
      exact countP_id_le_one q.id s.programs hnodup
  · intro p q now _
    rfl

/-- Witness for C8: a state reached by loading two programs and clicking the
first shows at most one selected card, and clicking the second card replaces
the provisional selection. -/
theorem single_provisional_selection_witness :
    ((renderCards { programs := [prgA, prgB], selectedProgram := some prgA
                  , loading := false }).filter (fun c => c.isSelected)).length ≤ 1 ∧
    ((selStep "b" { programs := [prgA, prgB], selectedProgram := some prgA
                  , loading := false }
        (SelEvent.clickCard prgB 5)).1).selectedProgram = some prgB := by
  have h := single_provisional_selection "b"
    { programs := [prgA, prgB], selectedProgram := some prgA, loading := false }
    (SelReachable.next _ (SelEvent.clickCard prgA 3)
      (SelReachable.next _ (SelEvent.programsResult (some [prgA, prgB]))
        SelReachable.init))
  exact ⟨h.1 (by decide), h.2 prgA prgB 5 rfl⟩

/-- C9: a failed detail fetch leaves the `program` state unchanged, so on a
fresh mount the not-found state shows, while after a successful load a
later failed fetch (for a changed route identifier) keeps the previously
loaded record's details on screen instead of the not-found state. -/
theorem detail_fetch_failure_keeps_program :
    (∀ s : DetState, (fetchProgramResolve s FetchResult.failure).1.program = s.program) ∧
    renderDetails (fetchProgramResolve detInit FetchResult.failure).1 =
      DetView.notFound "/" ∧
    (∀ p : Program,
      renderDetails (fetchProgramResolve
          (fetchProgramResolve detInit (FetchResult.success p)).1
          FetchResult.failure).1 =
        DetView.details p (detailGradient p.name) (renderCreated p.created_at) "/") :=
  ⟨fun _ => rfl, rfl, fun _ => rfl⟩

/-- C10: a card already in the provisional selected state has its inner
button disabled but keeps its card-level click handler, and clicking it again
issues another selection POST for the same program. -/
theorem selected_card_still_clickable (base : String) (s : SelState) (p : Program)
    (now : Nat) (hsel : s.selectedProgram = some p) :
    (renderCard s.selectedProgram s.programs p).buttonDisabled = true ∧
    (renderCard s.selectedProgram s.programs p).hasClickHandler = true ∧
    (selStep base s (SelEvent.clickCard p now)).2 =
      [Effect.post (selectRequestFor base p now)] := by
  refine ⟨?_, rfl, rfl⟩
  show isSelectedOf s.selectedProgram p = true
  rw [hsel]
  simp [isSelectedOf]

/-- Witness for C10: re-clicking the already-selected example card issues
another POST while its button is disabled. -/
theorem selected_card_still_clickable_witness :
    (renderCard (some prgA) [prgA, prgB] prgA).buttonDisabled = true ∧
    (renderCard (some prgA) [prgA, prgB] prgA).hasClickHandler = true ∧
    (selStep "b" { programs := [prgA, prgB], selectedProgram := some prgA
                 , loading := false }
        (SelEvent.clickCard prgA 7)).2 =
      [Effect.post (selectRequestFor "b" prgA 7)] :=
  selected_card_still_clickable "b"
    { programs := [prgA, prgB], selectedProgram := some prgA, loading := false }
    prgA 7 rfl

end App
